import Mathlib

/-
  Verification of candango/social-federation.

  Shallow embedding of:
    federation/entities/base.py          (entity mixins, validation engine)
    federation/entities/diaspora/entities.py   (protocol entities, serializers)

  The helpers from federation/entities/diaspora/utils.py (struct_to_xml,
  format_dt, get_base_attributes) are not part of the provided sources; they
  are modelled from the specification (and the fixture payloads under
  federation/tests/fixtures/payloads.py) and marked as such in doc comments.
  Time is modelled as explicit values: a date-time is a six-field record, and
  where only the identity of an instant matters a Nat clock value is used.
-/

/-- A date-time value (year, month, day, hour, minute, second), standing in
for Python datetime.datetime. -/
structure DateTime where
  year : Nat
  month : Nat
  day : Nat
  hour : Nat
  minute : Nat
  second : Nat
deriving DecidableEq, Repr

/-- Split a list of characters at every occurrence of the separator. -/
def splitOnChar (sep : Char) : List Char → List (List Char)
  | [] => [[]]
  | c :: cs =>
    let rest := splitOnChar sep cs
    if c = sep then [] :: rest
    else
      match rest with
      | [] => [[c]]
      | piece :: pieces => (c :: piece) :: pieces

/-- Modelled from the spec: the external email validator
(dirty_validators.basic.Email) used by HandleMixin.validate_handle; a handle
"must match a valid email-address grammar".  Modelled as: exactly one at-sign,
a nonempty local part, and a domain of at least two nonempty dot-separated
labels (so "alice@example.org" is valid and "not-an-email" is not). -/
def emailValid (s : String) : Bool :=
  match splitOnChar '@' s.data with
  | [localPart, domain] =>
    !localPart.isEmpty &&
      (let labels := splitOnChar '.' domain
       decide (2 ≤ labels.length) && labels.all (fun l => !l.isEmpty))
  | _ => false

/-- Sequencing of two validation steps: Python raises on the first failure,
so a failing first step short-circuits. -/
def seqValidate : Except String Unit → Except String Unit → Except String Unit
  | Except.error e, _ => Except.error e
  | Except.ok _, b => b

/-- GUIDMixin.validate_guid: `if self.guid and len(self.guid) < 16: raise`.
A non-empty guid shorter than 16 characters fails; empty passes. -/
def GUIDMixin.validate_guid (guid : String) : Except String Unit :=
  if guid ≠ "" ∧ guid.length < 16 then
    Except.error "GUID must be at least 16 characters"
  else Except.ok ()

/-- HandleMixin.validate_handle: the handle must pass the email validator. -/
def HandleMixin.validate_handle (handle : String) : Except String Unit :=
  if emailValid handle then Except.ok ()
  else Except.error "Handle is not valid"

/-- ParticipationMixin._participation_valid_values. -/
def ParticipationMixin.participationValidValues : List String :=
  ["reaction", "subscription", "comment"]

/-- ParticipationMixin.validate_participation. -/
def ParticipationMixin.validate_participation (p : String) : Except String Unit :=
  if p ∈ ParticipationMixin.participationValidValues then Except.ok ()
  else Except.error "participation should be one of: reaction, subscription, comment"

/-- Reaction._reaction_valid_values. -/
def Reaction.reactionValidValues : List String := ["like"]

/-- Reaction.validate_reaction. -/
def Reaction.validate_reaction (r : String) : Except String Unit :=
  if r ∈ Reaction.reactionValidValues then Except.ok ()
  else Except.error "reaction should be one of: like"

/-- Relationship._relationship_valid_values. -/
def Relationship.relationshipValidValues : List String :=
  ["sharing", "following", "ignoring", "blocking"]

/-- Relationship.validate_relationship. -/
def Relationship.validate_relationship (r : String) : Except String Unit :=
  if r ∈ Relationship.relationshipValidValues then Except.ok ()
  else Except.error "relationship should be one of: sharing, following, ignoring, blocking"

/-- Relationship.validate_target_handle: the target handle must pass the
email validator. -/
def Relationship.validate_target_handle (h : String) : Except String Unit :=
  if emailValid h then Except.ok ()
  else Except.error "Target handle is not valid"

/-- The final step of BaseEntity.validate:
`set(self._required).issubset(set(attributes))` where `attributes` is every
non-underscore name from dir(self); raises ValueError when the subset test
fails. -/
def BaseEntity.requiredCheck (required attrNames : List String) : Except String Unit :=
  if required.all (fun r => attrNames.contains r) then Except.ok ()
  else Except.error "Not all required attributes fulfilled"

/- Required-field contributions: each mixin appends its names to
self._required inside its own __init__. -/

/-- GUIDMixin.__init__ appends these to _required. -/
def GUIDMixin.requiredContribution : List String := ["guid"]

/-- HandleMixin.__init__ appends these to _required. -/
def HandleMixin.requiredContribution : List String := ["handle"]

/-- CreatedAtMixin.__init__ appends these to _required. -/
def CreatedAtMixin.requiredContribution : List String := ["created_at"]

/-- RawContentMixin.__init__ appends these to _required. -/
def RawContentMixin.requiredContribution : List String := ["raw_content"]

/-- ParticipationMixin.__init__ appends these to _required. -/
def ParticipationMixin.requiredContribution : List String := ["target_guid", "participation"]

/-- PublicMixin has no __init__ and contributes no required field. -/
def PublicMixin.requiredContribution : List String := []

/-- Image.__init__ appends these to _required beyond its mixins. -/
def Image.ownRequired : List String := ["remote_path", "remote_name"]

/-- Reaction.__init__ appends these to _required beyond its mixins. -/
def Reaction.ownRequired : List String := ["reaction"]

/-- Relationship.__init__ appends these to _required beyond its mixins
(the RelationshipRef unit of the spec). -/
def Relationship.refRequired : List String := ["relationship", "target_handle"]

/- The _required list each instance ends up with.  Every __init__ first calls
super().__init__() and then appends, so appends happen in reverse method
resolution order (deepest mixin first), followed by the entity kind itself. -/

/-- Post._required after construction.  MRO: Post, RawContentMixin,
GUIDMixin, HandleMixin, PublicMixin, CreatedAtMixin, BaseEntity. -/
def Post.required : List String :=
  ["created_at", "handle", "guid", "raw_content"]

/-- Image._required after construction.  MRO: Image, GUIDMixin, HandleMixin,
PublicMixin, CreatedAtMixin, BaseEntity; Image then appends its own two. -/
def Image.required : List String :=
  ["created_at", "handle", "guid", "remote_path", "remote_name"]

/-- Comment._required after construction.  MRO: Comment, RawContentMixin,
GUIDMixin, ParticipationMixin, CreatedAtMixin, HandleMixin, BaseEntity. -/
def Comment.required : List String :=
  ["handle", "created_at", "target_guid", "participation", "guid", "raw_content"]

/-- Reaction._required after construction.  MRO: Reaction, GUIDMixin,
ParticipationMixin, CreatedAtMixin, HandleMixin, BaseEntity; Reaction then
appends "reaction". -/
def Reaction.required : List String :=
  ["handle", "created_at", "target_guid", "participation", "guid", "reaction"]

/-- Relationship._required after construction.  MRO: Relationship,
CreatedAtMixin, HandleMixin, BaseEntity; Relationship then appends its
RelationshipRef pair. -/
def Relationship.required : List String :=
  ["handle", "created_at", "relationship", "target_handle"]

/-- The list accumulated by the Profile mixins before Profile.__init__ runs its
waiver.  MRO: Profile, CreatedAtMixin, HandleMixin, RawContentMixin,
PublicMixin, GUIDMixin, BaseEntity. -/
def Profile.requiredAccumulated : List String :=
  ["guid", "raw_content", "handle", "created_at"]

/-- Profile._required after construction: Profile.__init__ runs
`self._required.remove("guid")` (first occurrence removed). -/
def Profile.required : List String :=
  Profile.requiredAccumulated.erase "guid"

example : Profile.required = ["raw_content", "handle", "created_at"] := by decide

example : emailValid "alice@example.org" = true := by decide
example : emailValid "not-an-email" = false := by decide
example : emailValid "" = false := by decide

/- Entity records.  Field defaults mirror the Python class attributes; the
created_at class attribute has no honest per-kind default (it is the
module-load-time clock value, see CreatedAtMixin.created_at_class_default
below), so created_at is passed explicitly wherever an instance is built. -/

/-- Post: RawContentMixin, GUIDMixin, HandleMixin, PublicMixin,
CreatedAtMixin. -/
structure Post where
  guid : String := ""
  handle : String := ""
  public : Bool := false
  created_at : DateTime
  raw_content : String := ""
  provider_display_name : String := ""
  location : String := ""
  photos : List String := []
deriving DecidableEq, Repr

/-- Comment: RawContentMixin, GUIDMixin, ParticipationMixin, CreatedAtMixin,
HandleMixin; the class body fixes participation = "comment". -/
structure Comment where
  guid : String := ""
  handle : String := ""
  created_at : DateTime
  target_guid : String := ""
  participation : String := "comment"
  raw_content : String := ""
deriving DecidableEq, Repr

/-- Reaction: GUIDMixin, ParticipationMixin, CreatedAtMixin, HandleMixin;
the class body fixes participation = "reaction" and adds reaction. -/
structure Reaction where
  guid : String := ""
  handle : String := ""
  created_at : DateTime
  target_guid : String := ""
  participation : String := "reaction"
  reaction : String := ""
deriving DecidableEq, Repr

/-- Relationship: CreatedAtMixin, HandleMixin, plus target_handle and
relationship. -/
structure Relationship where
  handle : String := ""
  created_at : DateTime
  target_handle : String := ""
  relationship : String := ""
deriving DecidableEq, Repr

/-- Profile.image_urls: dict with keys small, medium, large. -/
structure ImageUrls where
  small : String := ""
  medium : String := ""
  large : String := ""
deriving DecidableEq, Repr

/-- Profile: CreatedAtMixin, HandleMixin, RawContentMixin, PublicMixin,
GUIDMixin, plus its own fields. -/
structure Profile where
  guid : String := ""
  handle : String := ""
  public : Bool := false
  created_at : DateTime
  raw_content : String := ""
  name : String := ""
  email : String := ""
  image_urls : ImageUrls := {}
  gender : String := ""
  location : String := ""
  nsfw : Bool := false
  tag_list : List String := []
  public_key : String := ""
deriving DecidableEq, Repr

/- dir(self) attribute lists: every non-underscore name visible on an
instance, in the sorted order dir produces.  Methods and the tags property
appear too; BaseEntity.validate iterates this list, invoking each existing
validate_<attr> method. -/

/-- Non-underscore names from dir() on a Post instance, sorted. -/
def Post.attrNames : List String :=
  ["created_at", "guid", "handle", "location", "photos",
   "provider_display_name", "public", "raw_content", "tags",
   "validate", "validate_guid", "validate_handle"]

/-- Non-underscore names from dir() on a Reaction instance, sorted. -/
def Reaction.attrNames : List String :=
  ["created_at", "guid", "handle", "participation", "reaction",
   "target_guid", "validate", "validate_guid", "validate_handle",
   "validate_participation", "validate_reaction"]

/-- Non-underscore names from dir() on a Relationship instance, sorted. -/
def Relationship.attrNames : List String :=
  ["created_at", "handle", "relationship", "target_handle",
   "validate", "validate_handle", "validate_relationship",
   "validate_target_handle"]

/-- BaseEntity.validate specialised to Post: dir() order calls
validate_guid, then validate_handle (guid sorts before handle), then the
required-membership check. -/
def Post.validate (p : Post) : Except String Unit :=
  seqValidate (GUIDMixin.validate_guid p.guid)
    (seqValidate (HandleMixin.validate_handle p.handle)
      (BaseEntity.requiredCheck Post.required Post.attrNames))

/-- BaseEntity.validate specialised to Reaction: dir() order calls
validate_guid, validate_handle, validate_participation, validate_reaction,
then the required-membership check. -/
def Reaction.validate (r : Reaction) : Except String Unit :=
  seqValidate (GUIDMixin.validate_guid r.guid)
    (seqValidate (HandleMixin.validate_handle r.handle)
      (seqValidate (ParticipationMixin.validate_participation r.participation)
        (seqValidate (Reaction.validate_reaction r.reaction)
          (BaseEntity.requiredCheck Reaction.required Reaction.attrNames))))

/-- BaseEntity.validate specialised to Relationship: dir() order calls
validate_handle, validate_relationship, validate_target_handle, then the
required-membership check. -/
def Relationship.validate (r : Relationship) : Except String Unit :=
  seqValidate (HandleMixin.validate_handle r.handle)
    (seqValidate (Relationship.validate_relationship r.relationship)
      (seqValidate (Relationship.validate_target_handle r.target_handle)
        (BaseEntity.requiredCheck Relationship.required Relationship.attrNames)))

/- RawContentMixin.tags -/

/-- Python str.split(): split on runs of whitespace, discarding empty
pieces.  The accumulator holds the current word reversed. -/
def pySplitGo : List Char → List Char → List String
  | [], acc => if acc.isEmpty then [] else [String.mk acc.reverse]
  | c :: cs, acc =>
    if c.isWhitespace then
      if acc.isEmpty then pySplitGo cs []
      else String.mk acc.reverse :: pySplitGo cs []
    else pySplitGo cs (c :: acc)

/-- Python str.split() with no separator argument. -/
def pySplit (s : String) : List String := pySplitGo s.data []

/-- Python word.startswith("#"). -/
def startsWithHash (w : String) : Bool :=
  match w.data with
  | c :: _ => c = '#'
  | [] => false

/-- Python word.strip("#"): remove every leading and trailing hash
character. -/
def stripHash (w : String) : String :=
  String.mk (((w.data.dropWhile (fun c => c = '#')).reverse.dropWhile
    (fun c => c = '#')).reverse)

/-- RawContentMixin.tags: empty set for empty content, otherwise the set of
stripped words of the content that start with a hash. -/
def RawContentMixin.tags (raw_content : String) : Finset String :=
  if raw_content = "" then ∅
  else (((pySplit raw_content).filter startsWithHash).map stripHash).toFinset

example : RawContentMixin.tags "hello #federation #socialfederation" =
    {"federation", "socialfederation"} := by decide

/- The wire serializer (federation/entities/diaspora/entities.py). -/

/-- An element tree as the serializer builds it: a root tag and, in order,
one child element per (tag, text) pair. -/
structure XmlElement where
  tag : String
  children : List (String × String)
deriving DecidableEq, Repr

/-- Modelled from the spec: struct_to_xml from
federation/entities/diaspora/utils.py (not under src/) appends one child
element per single-entry dict of the given list, preserving list order. -/
def struct_to_xml (tag : String) (fields : List (String × String)) : XmlElement :=
  ⟨tag, fields⟩

/-- Zero-pad a number to two digits. -/
def pad2 (n : Nat) : String :=
  if n < 10 then "0" ++ toString n else toString n

/-- Modelled from the spec: format_dt from
federation/entities/diaspora/utils.py (not under src/) renders a timestamp
via one fixed textual pattern; the fixture payloads
(federation/tests/fixtures/payloads.py) show it as
"2011-07-20 01:36:07 UTC". -/
def format_dt (dt : DateTime) : String :=
  toString dt.year ++ "-" ++ pad2 dt.month ++ "-" ++ pad2 dt.day ++ " " ++
    pad2 dt.hour ++ ":" ++ pad2 dt.minute ++ ":" ++ pad2 dt.second ++ " UTC"

/-- DiasporaPost.to_xml: a status_message element with children
raw_message, guid, diaspora_handle, public, created_at in that order.
DiasporaPost adds no fields of its own to Post. -/
def DiasporaPost.to_xml (p : Post) : XmlElement :=
  struct_to_xml "status_message" [
    ("raw_message", p.raw_content),
    ("guid", p.guid),
    ("diaspora_handle", p.handle),
    ("public", if p.public then "true" else "false"),
    ("created_at", format_dt p.created_at)]

/-- DiasporaComment: Comment plus the protocol-only author_signature field
(class default empty string). -/
structure DiasporaComment where
  guid : String := ""
  handle : String := ""
  created_at : DateTime
  target_guid : String := ""
  participation : String := "comment"
  raw_content : String := ""
  author_signature : String := ""
deriving DecidableEq, Repr

/-- DiasporaComment.to_xml: a comment element with children guid,
parent_guid, author_signature, text, diaspora_handle in that order. -/
def DiasporaComment.to_xml (c : DiasporaComment) : XmlElement :=
  struct_to_xml "comment" [
    ("guid", c.guid),
    ("parent_guid", c.target_guid),
    ("author_signature", c.author_signature),
    ("text", c.raw_content),
    ("diaspora_handle", c.handle)]

/-- DiasporaProfile.to_xml: a profile element with the fixed twelve-child
layout.  DiasporaProfile adds no fields of its own to Profile. -/
def DiasporaProfile.to_xml (p : Profile) : XmlElement :=
  struct_to_xml "profile" [
    ("diaspora_handle", p.handle),
    ("first_name", p.name),
    ("last_name", ""),
    ("image_url", p.image_urls.large),
    ("image_url_small", p.image_urls.small),
    ("image_url_medium", p.image_urls.medium),
    ("gender", p.gender),
    ("bio", p.raw_content),
    ("location", p.location),
    ("searchable", if p.public then "true" else "false"),
    ("nsfw", if p.nsfw then "true" else "false"),
    ("tag_string", String.intercalate " " (p.tag_list.map (fun t => "#" ++ t)))]

/-- Modelled from the spec: get_base_attributes from
federation/entities/diaspora/utils.py (not under src/) copies exactly the
fields declared on the generic entity schema; DiasporaEntityMixin.from_base
passes them as keywords to the protocol constructor, so protocol-only
fields such as author_signature keep their class defaults. -/
def DiasporaComment.from_base (c : Comment) : DiasporaComment :=
  { guid := c.guid
    handle := c.handle
    created_at := c.created_at
    target_guid := c.target_guid
    participation := c.participation
    raw_content := c.raw_content
    author_signature := "" }

/- The created_at default (CreatedAtMixin class body). -/

/-- In the source the class body of CreatedAtMixin runs
`created_at = datetime.datetime.now()` exactly once, when the module is
imported; the clock is modelled as an explicit Nat instant. -/
def CreatedAtMixin.created_at_class_default (moduleLoadTime : Nat) : Nat :=
  moduleLoadTime

set_option linter.unusedVariables false in
/-- An instance constructed without a created_at keyword reads the class
attribute, so its created_at is the module-load-time value, whatever the
construction-time clock reads (the second argument is deliberately
ignored: that is the behaviour under scrutiny). -/
def CreatedAtMixin.created_at_after_construction
    (moduleLoadTime constructionTime : Nat) : Nat :=
  CreatedAtMixin.created_at_class_default moduleLoadTime

/- Post construction as a dynamic attribute model (for the keyword
handling): an instance is an association list from attribute names to
dynamically typed values, as in Python, covering the full attribute
universe an instance exposes: the non-underscore names, the _required
instance attribute, and the object-protocol double-underscore names. -/

/-- A dynamically typed Python attribute value (the value universe the
keywords of this model can carry: strings, booleans, numbers, lists of
strings; notably it contains no class objects and no dicts). -/
inductive PyValue where
  | str : String → PyValue
  | bool : Bool → PyValue
  | nat : Nat → PyValue
  | strList : List String → PyValue
deriving DecidableEq, Repr

/-- Whether a value is a Python list (of strings) in this model. -/
def PyValue.isStrList : PyValue → Bool
  | PyValue.strList _ => true
  | _ => false

/-- getattr on the instance model: the value of the first entry carrying
the name. -/
def getAttr (key : String) : List (String × PyValue) → Option PyValue
  | [] => none
  | (k0, v0) :: rest => if k0 = key then some v0 else getAttr key rest

/-- setattr on the instance model: overwrite the entry in place when the
name is present, otherwise add it (the instance dict shadows the class
attribute; either way later getattr sees the new value). -/
def setAttr (inst : List (String × PyValue)) (key : String) (v : PyValue) :
    List (String × PyValue) :=
  if key ∈ inst.map Prod.fst then
    inst.map (fun p => if p.1 = key then (key, v) else p)
  else inst ++ [(key, v)]

/-- BaseEntity.__init__ keyword loop: for each keyword in order,
`if hasattr(self, key): setattr(self, key, value)`.  hasattrNames is the
full set of names hasattr answers true for; raising is the subset on which
setattr raises instead of storing (for every value of the modelled value
universe): the setterless tags property and the read-only __weakref__
descriptor raise AttributeError, and __class__ / __dict__ raise TypeError
because no modelled value is a class or a dict.  Names outside
hasattrNames are skipped. -/
def BaseEntity.init (hasattrNames raising : List String) :
    List (String × PyValue) → List (String × PyValue) →
    Except String (List (String × PyValue))
  | inst, [] => Except.ok inst
  | inst, (k, v) :: rest =>
    if k ∈ hasattrNames then
      if k ∈ raising then Except.error ("setattr raises for " ++ k)
      else BaseEntity.init hasattrNames raising (setAttr inst k v) rest
    else BaseEntity.init hasattrNames raising inst rest

/-- One mixin running `self._required += contribution` after
BaseEntity.__init__ has returned: += extends in place when _required holds
a list and raises TypeError when a keyword overwrote it with a non-list
value (the none branch is unreachable: BaseEntity.__init__ assigns
_required before the keyword loop). -/
def appendRequired (contribution : List String)
    (inst : List (String × PyValue)) :
    Except String (List (String × PyValue)) :=
  match getAttr "_required" inst with
  | some (PyValue.strList xs) =>
      Except.ok (setAttr inst "_required" (PyValue.strList (xs ++ contribution)))
  | some _ => Except.error "TypeError: += of a list onto a non-list"
  | none => Except.error "AttributeError: _required"

/-- The chain of mixin appends, innermost __init__ first. -/
def applyAppends : List (List String) → List (String × PyValue) →
    Except String (List (String × PyValue))
  | [], inst => Except.ok inst
  | c :: cs, inst =>
    match appendRequired c inst with
    | Except.error e => Except.error e
    | Except.ok i => applyAppends cs i

/-- The double-underscore attribute names every plain-class instance
exposes under CPython 3.4/3.5, the interpreter generation contemporary
with the source (later interpreters add a few more, such as
__init_subclass__ in 3.6, which would likewise be settable). -/
def Post.dunderAttrNames : List String :=
  ["__class__", "__delattr__", "__dict__", "__dir__", "__doc__", "__eq__",
   "__format__", "__ge__", "__getattribute__", "__gt__", "__hash__",
   "__init__", "__le__", "__lt__", "__module__", "__ne__", "__new__",
   "__reduce__", "__reduce_ex__", "__repr__", "__setattr__", "__sizeof__",
   "__str__", "__subclasshook__", "__weakref__"]

/-- Every name hasattr answers true for on a Post instance: the
non-underscore dir() names, the _required instance attribute, and the
object-protocol names. -/
def Post.hasattrNames : List String :=
  Post.attrNames ++ ["_required"] ++ Post.dunderAttrNames

/-- The names on which setattr raises for every value of the modelled
universe: tags (property without a setter, AttributeError), __class__ and
__dict__ (TypeError: the assigned value is never a class or a dict here),
__weakref__ (read-only descriptor, AttributeError). -/
def Post.raisingAttrNames : List String :=
  ["tags", "__class__", "__dict__", "__weakref__"]

/-- The hasattr names on which setattr plainly stores the value: every
hasattr name that is not in the raising set. -/
def Post.settableAttrNames : List String :=
  ["created_at", "guid", "handle", "location", "photos",
   "provider_display_name", "public", "raw_content",
   "validate", "validate_guid", "validate_handle",
   "_required",
   "__delattr__", "__dir__", "__doc__", "__eq__", "__format__", "__ge__",
   "__getattribute__", "__gt__", "__hash__", "__init__", "__le__", "__lt__",
   "__module__", "__ne__", "__new__", "__reduce__", "__reduce_ex__",
   "__repr__", "__setattr__", "__sizeof__", "__str__", "__subclasshook__"]

example : Post.settableAttrNames =
    Post.hasattrNames.filter (fun k => !Post.raisingAttrNames.contains k) := by
  decide

/-- The attribute values a Post instance holds when the keyword loop of
BaseEntity.__init__ starts: the _required list just assigned by
`self._required = []`, and the class attribute defaults (created_at holds
the module-load-time clock value). -/
def Post.dataDefaults (createdDefault : PyValue) : List (String × PyValue) :=
  [("_required", PyValue.strList []),
   ("created_at", createdDefault),
   ("guid", PyValue.str ""),
   ("handle", PyValue.str ""),
   ("location", PyValue.str ""),
   ("photos", PyValue.strList []),
   ("provider_display_name", PyValue.str ""),
   ("public", PyValue.bool false),
   ("raw_content", PyValue.str "")]

/-- The _required contributions the four Post mixins append after
BaseEntity.__init__ returns, in super-chain return order (CreatedAtMixin,
HandleMixin, GUIDMixin, RawContentMixin). -/
def Post.mixinAppends : List (List String) :=
  [["created_at"], ["handle"], ["guid"], ["raw_content"]]

/-- Post(**kwargs) under the dynamic attribute model: the BaseEntity
keyword loop over the defaults, then the mixin appends to _required. -/
def Post.construct (createdDefault : PyValue)
    (kwargs : List (String × PyValue)) :
    Except String (List (String × PyValue)) :=
  match BaseEntity.init Post.hasattrNames Post.raisingAttrNames
      (Post.dataDefaults createdDefault) kwargs with
  | Except.error e => Except.error e
  | Except.ok inst => applyAppends Post.mixinAppends inst

/- Theorems. -/

/-- A Post with a valid guid and handle whose required raw_content field is
still at its empty default. -/
def postMissingRawContent : Post :=
  { guid := "a0a0a0a0a0a0a0a0"
    handle := "alice@example.org"
    created_at := ⟨2011, 7, 20, 1, 36, 7⟩ }

/-- C1: the claim says validate fails with MissingRequired naming every
absent required field.  The code instead compares _required against the
attribute NAMES from dir(), which always contain every required name
(defaults are class attributes), so the MissingRequired branch is
unreachable: a Post whose required raw_content is absent (empty default)
validates without error. -/
theorem C1_missing_required_is_unreachable :
    Post.required.contains "raw_content" = true ∧
    postMissingRawContent.raw_content = "" ∧
    Post.validate postMissingRawContent = Except.ok () ∧
    BaseEntity.requiredCheck Post.required Post.attrNames = Except.ok () := by
  refine ⟨by decide, rfl, by rfl, by rfl⟩

/-- C2: for every entity kind the required-field set equals the union of
the composed unit contributions (plus kind-specific additions), except
Profile, whose set is that union minus the identity contribution guid. -/
theorem C2_required_sets_are_unit_unions :
    Post.required.toFinset =
      (RawContentMixin.requiredContribution ++ GUIDMixin.requiredContribution ++
        HandleMixin.requiredContribution ++ CreatedAtMixin.requiredContribution).toFinset ∧
    Image.required.toFinset =
      (GUIDMixin.requiredContribution ++ HandleMixin.requiredContribution ++
        CreatedAtMixin.requiredContribution ++ Image.ownRequired).toFinset ∧
    Comment.required.toFinset =
      (RawContentMixin.requiredContribution ++ GUIDMixin.requiredContribution ++
        ParticipationMixin.requiredContribution ++ CreatedAtMixin.requiredContribution ++
        HandleMixin.requiredContribution).toFinset ∧
    Reaction.required.toFinset =
      (GUIDMixin.requiredContribution ++ ParticipationMixin.requiredContribution ++
        CreatedAtMixin.requiredContribution ++ HandleMixin.requiredContribution ++
        Reaction.ownRequired).toFinset ∧
    Relationship.required.toFinset =
      (CreatedAtMixin.requiredContribution ++ HandleMixin.requiredContribution ++
        Relationship.refRequired).toFinset ∧
    Profile.required.toFinset =
      (CreatedAtMixin.requiredContribution ++ HandleMixin.requiredContribution ++
        RawContentMixin.requiredContribution ++ PublicMixin.requiredContribution ++
        GUIDMixin.requiredContribution).toFinset \
        GUIDMixin.requiredContribution.toFinset := by
  refine ⟨by decide, by decide, by decide, by decide, by decide, by decide⟩

/-- The Post of the end-to-end serialization example. -/
def c3Post : Post :=
  { guid := "a0a0a0a0a0a0a0a0"
    handle := "alice@alice.example.org"
    public := false
    created_at := ⟨2011, 7, 20, 1, 36, 7⟩
    raw_content := "((status message))" }

/-- C3: the example Post serializes to a status_message element whose
children appear in the exact order raw_message, guid, diaspora_handle,
public, created_at, with public holding the literal "false"; flipping
public to true renders the literal "true". -/
theorem C3_post_serialization :
    DiasporaPost.to_xml c3Post =
      ⟨"status_message",
        [("raw_message", "((status message))"),
         ("guid", "a0a0a0a0a0a0a0a0"),
         ("diaspora_handle", "alice@alice.example.org"),
         ("public", "false"),
         ("created_at", "2011-07-20 01:36:07 UTC")]⟩ ∧
    DiasporaPost.to_xml { c3Post with public := true } =
      ⟨"status_message",
        [("raw_message", "((status message))"),
         ("guid", "a0a0a0a0a0a0a0a0"),
         ("diaspora_handle", "alice@alice.example.org"),
         ("public", "true"),
         ("created_at", "2011-07-20 01:36:07 UTC")]⟩ := by
  refine ⟨by decide, by decide⟩

/-- C5: the guid rule fails exactly when the guid is non-empty and shorter
than 16 characters; an empty guid and any guid of length at least 16 pass. -/
theorem C5_guid_length_rule (g : String) :
    (∃ e, GUIDMixin.validate_guid g = Except.error e) ↔
      (g ≠ "" ∧ g.length < 16) := by
  unfold GUIDMixin.validate_guid
  by_cases h : g ≠ "" ∧ g.length < 16
  · simp [h]
  · simp [h]

/-- C5 witness: "a" is non-empty and shorter than 16 characters, and the
rule indeed fails on it. -/
theorem C5_guid_length_rule_witness :
    ∃ e, GUIDMixin.validate_guid "a" = Except.error e :=
  (C5_guid_length_rule "a").mpr (by decide)

/-- C6: derived tags of "hello #federation #socialfederation" are exactly
the set containing federation and socialfederation, and empty raw content
yields the empty set. -/
theorem C6_tags_derivation :
    RawContentMixin.tags "hello #federation #socialfederation" =
      {"federation", "socialfederation"} ∧
    RawContentMixin.tags "" = ∅ := by
  refine ⟨by decide, by decide⟩

/-- If the second validation step fails, the sequenced validation fails,
whatever the first step does. -/
theorem seqValidate_error_of_right (a b : Except String Unit)
    (hb : ∃ e, b = Except.error e) :
    ∃ e, seqValidate a b = Except.error e := by
  cases a with
  | error e => exact ⟨e, rfl⟩
  | ok u => simpa [seqValidate] using hb

/-- A Reaction whose kind is outside the closed domain but whose other
fields are well formed. -/
def reactionDislike : Reaction :=
  { guid := "a0a0a0a0a0a0a0a0"
    handle := "alice@example.org"
    created_at := ⟨2011, 7, 20, 1, 36, 7⟩
    target_guid := "b0b0b0b0b0b0b0b0"
    reaction := "dislike" }

/-- A Relationship whose kind is outside the closed domain but whose other
fields are well formed. -/
def relationshipSpying : Relationship :=
  { handle := "bob@example.com"
    created_at := ⟨2011, 7, 20, 1, 36, 7⟩
    target_handle := "alice@alice.example.org"
    relationship := "spying" }

/-- C4: the reaction rule passes exactly on "like" and the relationship
rule exactly on the four declared kinds; full validation fails on every
Reaction whose kind is outside the domain and on every Relationship whose
kind is outside the domain; and construction stores an out-of-domain value
untouched (it is only rejected at validation time). -/
theorem C4_enumerated_domain_validation :
    (∀ v, Reaction.validate_reaction v = Except.ok () ↔
      v ∈ Reaction.reactionValidValues) ∧
    (∀ r : Reaction, r.reaction ∉ Reaction.reactionValidValues →
      ∃ e, Reaction.validate r = Except.error e) ∧
    (∀ v, Relationship.validate_relationship v = Except.ok () ↔
      v ∈ Relationship.relationshipValidValues) ∧
    (∀ r : Relationship, r.relationship ∉ Relationship.relationshipValidValues →
      ∃ e, Relationship.validate r = Except.error e) ∧
    (∀ g h t tg p v, (Reaction.mk g h t tg p v).reaction = v) ∧
    (∀ h t th v, (Relationship.mk h t th v).relationship = v) := by
  refine ⟨?_, ?_, ?_, ?_, fun _ _ _ _ _ _ => rfl, fun _ _ _ _ => rfl⟩
  · intro v
    unfold Reaction.validate_reaction
    by_cases hv : v ∈ Reaction.reactionValidValues <;> simp [hv]
  · intro r hr
    unfold Reaction.validate
    apply seqValidate_error_of_right
    apply seqValidate_error_of_right
    apply seqValidate_error_of_right
    refine ⟨"reaction should be one of: like", ?_⟩
    have hrx : Reaction.validate_reaction r.reaction =
        Except.error "reaction should be one of: like" := by
      unfold Reaction.validate_reaction
      simp [hr]
    rw [hrx]
    rfl
  · intro v
    unfold Relationship.validate_relationship
    by_cases hv : v ∈ Relationship.relationshipValidValues <;> simp [hv]
  · intro r hr
    unfold Relationship.validate
    apply seqValidate_error_of_right
    refine ⟨"relationship should be one of: sharing, following, ignoring, blocking", ?_⟩
    have hrx : Relationship.validate_relationship r.relationship =
        Except.error
          "relationship should be one of: sharing, following, ignoring, blocking" := by
      unfold Relationship.validate_relationship
      simp [hr]
    rw [hrx]
    rfl

/-- C4 witness: "dislike" and "spying" are outside their domains, "like"
and "blocking" inside, and full validation fails on the concrete
out-of-domain Reaction and Relationship. -/
theorem C4_enumerated_domain_validation_witness :
    Reaction.validate_reaction "like" = Except.ok () ∧
    Relationship.validate_relationship "blocking" = Except.ok () ∧
    (∃ e, Reaction.validate reactionDislike = Except.error e) ∧
    (∃ e, Relationship.validate relationshipSpying = Except.error e) :=
  ⟨(C4_enumerated_domain_validation.1 "like").mpr (by decide),
   (C4_enumerated_domain_validation.2.2.1 "blocking").mpr (by decide),
   C4_enumerated_domain_validation.2.1 reactionDislike (by decide),
   C4_enumerated_domain_validation.2.2.2.1 relationshipSpying (by decide)⟩

/-- A DiasporaComment left entirely at its class defaults (created_at is
the module-load-time clock value, hence a parameter). -/
def defaultDiasporaComment (t : DateTime) : DiasporaComment :=
  { created_at := t }

/-- A Profile left entirely at its class defaults. -/
def defaultProfile (t : DateTime) : Profile :=
  { created_at := t }

/-- C7: the serializer performs no validation and cannot fail; on entities
whose required string fields are still unset it emits the full fixed
element tree with empty-string leaves in their place (boolean leaves render
their default as the literal "false"). -/
theorem C7_serializer_total_on_defaults (t : DateTime) :
    DiasporaComment.to_xml (defaultDiasporaComment t) =
      ⟨"comment",
        [("guid", ""), ("parent_guid", ""), ("author_signature", ""),
         ("text", ""), ("diaspora_handle", "")]⟩ ∧
    DiasporaProfile.to_xml (defaultProfile t) =
      ⟨"profile",
        [("diaspora_handle", ""), ("first_name", ""), ("last_name", ""),
         ("image_url", ""), ("image_url_small", ""), ("image_url_medium", ""),
         ("gender", ""), ("bio", ""), ("location", ""),
         ("searchable", "false"), ("nsfw", "false"), ("tag_string", "")]⟩ :=
  ⟨rfl, rfl⟩

/-- C8: from_base copies exactly the generic Comment fields and leaves the
protocol-only author_signature at its empty default; being a total
function, it performs no validation and cannot fail. -/
theorem C8_from_base_copies_only_base_fields (c : Comment) :
    (DiasporaComment.from_base c).author_signature = "" ∧
    (DiasporaComment.from_base c).guid = c.guid ∧
    (DiasporaComment.from_base c).handle = c.handle ∧
    (DiasporaComment.from_base c).created_at = c.created_at ∧
    (DiasporaComment.from_base c).target_guid = c.target_guid ∧
    (DiasporaComment.from_base c).participation = c.participation ∧
    (DiasporaComment.from_base c).raw_content = c.raw_content :=
  ⟨rfl, rfl, rfl, rfl, rfl, rfl, rfl⟩

/-- C9: the claim says each construction without an explicit timestamp
observes the then-current time.  The class body evaluates the clock once,
at module import, so an instance constructed later still carries the
import-time value: with the module imported at instant 0, constructions at
instants 5 and 99 both default to 0, not to their own construction times. -/
theorem C9_created_at_default_is_import_time :
    CreatedAtMixin.created_at_after_construction 0 5 = 0 ∧
    CreatedAtMixin.created_at_after_construction 0 5 ≠ 5 ∧
    CreatedAtMixin.created_at_after_construction 0 5 =
      CreatedAtMixin.created_at_after_construction 0 99 := by
  refine ⟨rfl, by decide, rfl⟩

/-- getattr after an in-place replacement of the entry carrying the same
name yields the new value (the name must be present for the replacement
map to hit it). -/
theorem getAttr_map_replace (k : String) (v : PyValue) :
    ∀ inst : List (String × PyValue), k ∈ inst.map Prod.fst →
      getAttr k (inst.map (fun p => if p.1 = k then (k, v) else p)) = some v := by
  intro inst
  induction inst with
  | nil => intro h; simp at h
  | cons p rest ih =>
    obtain ⟨k0, v0⟩ := p
    intro h
    simp only [List.map_cons]
    by_cases hp : k0 = k
    · rw [if_pos (show ((k0, v0) : String × PyValue).1 = k from hp)]
      simp [getAttr]
    · have hk : k ∈ rest.map Prod.fst := by
        simp only [List.map_cons] at h
        rcases List.mem_cons.mp h with h1 | h1
        · exact absurd h1.symm hp
        · exact h1
      rw [if_neg (show ¬((k0, v0) : String × PyValue).1 = k from hp)]
      simp [getAttr, hp, ih hk]

/-- getattr after appending a fresh entry of the same name yields its
value. -/
theorem getAttr_append_self (k : String) (v : PyValue) :
    ∀ inst : List (String × PyValue), k ∉ inst.map Prod.fst →
      getAttr k (inst ++ [(k, v)]) = some v := by
  intro inst
  induction inst with
  | nil => intro h; simp [getAttr]
  | cons p rest ih =>
    intro h
    have hp : p.1 ≠ k := fun hc => h (by simp [hc])
    have hk : k ∉ rest.map Prod.fst := fun hm => h (by simp [hm])
    simp [getAttr, hp, ih hk]

/-- getattr sees the value setattr just stored under the same name. -/
theorem getAttr_setAttr_self (inst : List (String × PyValue)) (k : String)
    (v : PyValue) : getAttr k (setAttr inst k v) = some v := by
  unfold setAttr
  by_cases hm : k ∈ inst.map Prod.fst
  · simp only [if_pos hm]
    exact getAttr_map_replace k v inst hm
  · simp only [if_neg hm]
    exact getAttr_append_self k v inst hm

/-- Replacing the entry of a different name does not change what getattr
sees. -/
theorem getAttr_map_replace_other (k k2 : String) (v : PyValue)
    (hne : k ≠ k2) :
    ∀ inst : List (String × PyValue),
      getAttr k (inst.map (fun p => if p.1 = k2 then (k2, v) else p)) =
        getAttr k inst := by
  intro inst
  induction inst with
  | nil => rfl
  | cons p rest ih =>
    obtain ⟨k0, v0⟩ := p
    simp only [List.map_cons]
    by_cases hp : k0 = k2
    · rw [if_pos (show ((k0, v0) : String × PyValue).1 = k2 from hp)]
      simp [getAttr, hp, Ne.symm hne, ih]
    · rw [if_neg (show ¬((k0, v0) : String × PyValue).1 = k2 from hp)]
      by_cases hpk : k0 = k
      · simp [getAttr, hpk]
      · simp [getAttr, hpk, ih]

/-- Appending an entry of a different name does not change what getattr
sees. -/
theorem getAttr_append_other (k k2 : String) (v : PyValue) (hne : k ≠ k2) :
    ∀ inst : List (String × PyValue),
      getAttr k (inst ++ [(k2, v)]) = getAttr k inst := by
  intro inst
  induction inst with
  | nil => simp [getAttr, Ne.symm hne]
  | cons p rest ih =>
    by_cases hpk : p.1 = k
    · simp [getAttr, hpk]
    · simp [getAttr, hpk, ih]

/-- setattr under a different name does not change what getattr sees. -/
theorem getAttr_setAttr_other (inst : List (String × PyValue))
    (k k2 : String) (v : PyValue) (hne : k ≠ k2) :
    getAttr k (setAttr inst k2 v) = getAttr k inst := by
  unfold setAttr
  by_cases hm : k2 ∈ inst.map Prod.fst
  · simp only [if_pos hm]
    exact getAttr_map_replace_other k k2 v hne inst
  · simp only [if_neg hm]
    exact getAttr_append_other k k2 v hne inst

/-- The keyword loop succeeds whenever no keyword names a raising
attribute and any keyword for _required carries a list value; the
_required entry then still holds a list when the loop finishes. -/
theorem BaseEntity.init_ok_and_required (a raising : List String) :
    ∀ kwargs : List (String × PyValue),
      (∀ p ∈ kwargs, p.1 ∉ raising ∧
        (p.1 = "_required" → PyValue.isStrList p.2 = true)) →
      ∀ inst, (∃ xs, getAttr "_required" inst = some (PyValue.strList xs)) →
        ∃ r, BaseEntity.init a raising inst kwargs = Except.ok r ∧
          ∃ ys, getAttr "_required" r = some (PyValue.strList ys) := by
  intro kwargs
  induction kwargs with
  | nil => intro _ inst hinv; exact ⟨inst, rfl, hinv⟩
  | cons kv rest ih =>
    intro h inst hinv
    obtain ⟨k, v⟩ := kv
    obtain ⟨hkr, hkreq⟩ := h (k, v) (List.mem_cons_self _ _)
    have hrest : ∀ p ∈ rest, p.1 ∉ raising ∧
        (p.1 = "_required" → PyValue.isStrList p.2 = true) :=
      fun p hm => h p (List.mem_cons_of_mem _ hm)
    unfold BaseEntity.init
    by_cases ha : k ∈ a
    · simp only [if_pos ha, if_neg hkr]
      apply ih hrest (setAttr inst k v)
      by_cases hk : k = "_required"
      · subst hk
        have hv := hkreq rfl
        cases v with
        | strList zs =>
          exact ⟨zs, getAttr_setAttr_self inst _ (PyValue.strList zs)⟩
        | str s => simp [PyValue.isStrList] at hv
        | bool b => simp [PyValue.isStrList] at hv
        | nat n => simp [PyValue.isStrList] at hv
      · obtain ⟨xs, hxs⟩ := hinv
        refine ⟨xs, ?_⟩
        rw [getAttr_setAttr_other inst "_required" k v (Ne.symm hk)]
        exact hxs
    · simp only [if_neg ha]
      exact ih hrest inst hinv

/-- The mixin appends all succeed when _required holds a list. -/
theorem applyAppends_ok :
    ∀ (cs : List (List String)) (inst : List (String × PyValue)),
      (∃ xs, getAttr "_required" inst = some (PyValue.strList xs)) →
      ∃ r, applyAppends cs inst = Except.ok r := by
  intro cs
  induction cs with
  | nil => intro inst _; exact ⟨inst, rfl⟩
  | cons c rest ih =>
    intro inst hinv
    obtain ⟨xs, hxs⟩ := hinv
    unfold applyAppends appendRequired
    rw [hxs]
    exact ih (setAttr inst "_required" (PyValue.strList (xs ++ c)))
      ⟨xs ++ c, getAttr_setAttr_self inst "_required" (PyValue.strList (xs ++ c))⟩

/-- The mixin appends touch only the _required entry: every other
attribute keeps its value. -/
theorem applyAppends_preserves_other (k : String) (hne : k ≠ "_required") :
    ∀ (cs : List (List String)) (inst r : List (String × PyValue)),
      applyAppends cs inst = Except.ok r → getAttr k r = getAttr k inst := by
  intro cs
  induction cs with
  | nil =>
    intro inst r h
    cases h
    rfl
  | cons c rest ih =>
    intro inst r h
    unfold applyAppends appendRequired at h
    cases hx : getAttr "_required" inst with
    | none => rw [hx] at h; cases h
    | some v0 =>
      rw [hx] at h
      cases v0 with
      | strList xs =>
        rw [ih (setAttr inst "_required" (PyValue.strList (xs ++ c))) r h,
          getAttr_setAttr_other inst k "_required" _ hne]
      | str s => cases h
      | bool b => cases h
      | nat n => cases h

/-- The mixin appends extend a list-valued _required by each contribution
in turn. -/
theorem applyAppends_required :
    ∀ (cs : List (List String)) (inst : List (String × PyValue))
      (xs : List String),
      getAttr "_required" inst = some (PyValue.strList xs) →
      ∃ r, applyAppends cs inst = Except.ok r ∧
        getAttr "_required" r =
          some (PyValue.strList (cs.foldl (fun a c => a ++ c) xs)) := by
  intro cs
  induction cs with
  | nil =>
    intro inst xs h
    exact ⟨inst, rfl, by simpa using h⟩
  | cons c rest ih =>
    intro inst xs h
    unfold applyAppends appendRequired
    rw [h]
    exact ih (setAttr inst "_required" (PyValue.strList (xs ++ c))) (xs ++ c)
      (getAttr_setAttr_self inst "_required" (PyValue.strList (xs ++ c)))

/-- A keyword whose name matches no attribute is skipped: the keyword loop
with it equals the loop without it, wherever it sits in the keyword
list. -/
theorem BaseEntity.init_skips_unknown (a raising : List String) (k : String)
    (v : PyValue) (hk : k ∉ a) :
    ∀ (xs ys inst : _),
      BaseEntity.init a raising inst (xs ++ (k, v) :: ys) =
        BaseEntity.init a raising inst (xs ++ ys) := by
  intro xs
  induction xs with
  | nil =>
    intro ys inst
    simp [BaseEntity.init, hk]
  | cons p rest ih =>
    intro ys inst
    obtain ⟨k2, v2⟩ := p
    simp only [List.cons_append]
    unfold BaseEntity.init
    by_cases h2 : k2 ∈ a
    · by_cases hr2 : k2 ∈ raising
      · simp [h2, hr2]
      · simp [h2, hr2, ih]
    · simp [h2, ih]

/-- C10 counterexample: the claim says construction never raises, but the
keyword tags names an existing attribute that is a read-only property
(RawContentMixin.tags has no setter): hasattr holds for it and setattr
raises AttributeError, so Post(tags=...) fails at construction. -/
theorem C10_construction_raises_on_property :
    Post.construct (PyValue.str "T0") [("tags", PyValue.str "x")] =
      Except.error "setattr raises for tags" := rfl

/-- C10 amended: construction never raises provided no keyword names an
attribute on which setattr raises (the read-only tags property; __class__,
__dict__ and __weakref__ for the modelled values) and any _required
keyword carries a list value; a keyword matching a settable attribute
other than _required sets it to the supplied value; a _required keyword
with a list value sets it and the unit contributions are then appended to
it; and a keyword matching no attribute is silently skipped, leaving the
construction identical to one without it. -/
theorem C10_construction_amended :
    (∀ t kwargs,
      (∀ p ∈ kwargs, p.1 ∉ Post.raisingAttrNames ∧
        (p.1 = "_required" → PyValue.isStrList p.2 = true)) →
      ∃ inst, Post.construct t kwargs = Except.ok inst) ∧
    (∀ t k v, k ∈ Post.settableAttrNames → k ≠ "_required" →
      ∃ inst, Post.construct t [(k, v)] = Except.ok inst ∧
        getAttr k inst = some v) ∧
    (∀ t xs, ∃ inst,
      Post.construct t [("_required", PyValue.strList xs)] = Except.ok inst ∧
        getAttr "_required" inst = some (PyValue.strList
          (xs ++ ["created_at"] ++ ["handle"] ++ ["guid"] ++ ["raw_content"]))) ∧
    (∀ t k v xs ys, k ∉ Post.hasattrNames →
      Post.construct t (xs ++ (k, v) :: ys) = Post.construct t (xs ++ ys)) := by
  have hsub : ∀ x ∈ Post.settableAttrNames,
      x ∈ Post.hasattrNames ∧ x ∉ Post.raisingAttrNames := by decide
  refine ⟨?_, ?_, ?_, ?_⟩
  · intro t kwargs h
    obtain ⟨r, hr, hinv⟩ := BaseEntity.init_ok_and_required Post.hasattrNames
      Post.raisingAttrNames kwargs h (Post.dataDefaults t) ⟨[], rfl⟩
    obtain ⟨r2, hr2⟩ := applyAppends_ok Post.mixinAppends r hinv
    refine ⟨r2, ?_⟩
    unfold Post.construct
    rw [hr]
    exact hr2
  · intro t k v hk hne
    obtain ⟨hin, hnr⟩ := hsub k hk
    have hinit : BaseEntity.init Post.hasattrNames Post.raisingAttrNames
        (Post.dataDefaults t) [(k, v)] =
        Except.ok (setAttr (Post.dataDefaults t) k v) := by
      unfold BaseEntity.init
      rw [if_pos hin, if_neg hnr]
      rfl
    have hinv : ∃ zs, getAttr "_required" (setAttr (Post.dataDefaults t) k v) =
        some (PyValue.strList zs) :=
      ⟨[], by
        rw [getAttr_setAttr_other (Post.dataDefaults t) "_required" k v
          (Ne.symm hne)]
        rfl⟩
    obtain ⟨r, hr⟩ := applyAppends_ok Post.mixinAppends
      (setAttr (Post.dataDefaults t) k v) hinv
    refine ⟨r, ?_, ?_⟩
    · unfold Post.construct
      rw [hinit]
      exact hr
    · rw [applyAppends_preserves_other k hne Post.mixinAppends
        (setAttr (Post.dataDefaults t) k v) r hr,
        getAttr_setAttr_self (Post.dataDefaults t) k v]
  · intro t xs
    have hinit : BaseEntity.init Post.hasattrNames Post.raisingAttrNames
        (Post.dataDefaults t) [("_required", PyValue.strList xs)] =
        Except.ok (setAttr (Post.dataDefaults t) "_required"
          (PyValue.strList xs)) := by
      unfold BaseEntity.init
      rw [if_pos (by decide), if_neg (by decide)]
      rfl
    obtain ⟨r, hr, hreq⟩ := applyAppends_required Post.mixinAppends
      (setAttr (Post.dataDefaults t) "_required" (PyValue.strList xs)) xs
      (getAttr_setAttr_self (Post.dataDefaults t) "_required"
        (PyValue.strList xs))
    refine ⟨r, ?_, ?_⟩
    · unfold Post.construct
      rw [hinit]
      exact hr
    · exact hreq
  · intro t k v xs ys hk
    unfold Post.construct
    rw [BaseEntity.init_skips_unknown Post.hasattrNames Post.raisingAttrNames
      k v hk xs ys (Post.dataDefaults t)]

/-- C10 amended witness: a guid keyword plus an unknown colour keyword
succeed; the guid keyword sets guid; a _required keyword with a list value
sets it and the unit contributions are appended; the unknown colour
keyword is skipped. -/
theorem C10_construction_amended_witness :
    (∃ inst, Post.construct (PyValue.str "T0")
      [("guid", PyValue.str "g"), ("colour", PyValue.str "x")] =
        Except.ok inst) ∧
    (∃ inst, Post.construct (PyValue.str "T0") [("guid", PyValue.str "g")] =
        Except.ok inst ∧ getAttr "guid" inst = some (PyValue.str "g")) ∧
    (∃ inst, Post.construct (PyValue.str "T0")
        [("_required", PyValue.strList ["x"])] = Except.ok inst ∧
      getAttr "_required" inst = some (PyValue.strList
        (["x"] ++ ["created_at"] ++ ["handle"] ++ ["guid"] ++ ["raw_content"]))) ∧
    Post.construct (PyValue.str "T0") ([] ++ [("colour", PyValue.str "x")]) =
      Post.construct (PyValue.str "T0") ([] ++ []) :=
  ⟨C10_construction_amended.1 (PyValue.str "T0") _ (by decide),
   C10_construction_amended.2.1 (PyValue.str "T0") "guid" (PyValue.str "g")
     (by decide) (by decide),
   C10_construction_amended.2.2.1 (PyValue.str "T0") ["x"],
   C10_construction_amended.2.2.2 (PyValue.str "T0") "colour"
     (PyValue.str "x") [] [] (by decide)⟩
